import Mathlib

/-!
# Verification of the autoscaler signal-acquisition core

Shallow embedding of the OOM/eviction detection and custom metric query
building code of the `bradmann/autoscaler` excerpt, together with proofs of
the specified properties.

The query builder (`metrics_custom_query_builder.go`) is embedded directly
from its Go source.  The OOM observer, the eviction-event parser, the JVM
heap-override parser and the metrics snapshot assembler are present in the
excerpt only through their tests; those operations are modelled from the
specification, with the channel batch structure pinned by the tests in
`observer_test.go` and `part_000`.
-/

namespace Autoscaler

/-- Resource kinds recognized by the recommender model
(`model.ResourceCPU`, `model.ResourceMemory`, `model.ResourceRSS`,
`model.ResourceJVMHeapCommitted`). -/
inductive ResourceKind where
  | CPU
  | Memory
  | RSS
  | JVMHeapCommitted
deriving DecidableEq, Repr

/-- Compound container identity `model.ContainerID`:
namespace, pod name and container name. -/
structure ContainerID where
  «namespace» : String
  podName : String
  containerName : String
deriving DecidableEq, Repr

/-- A structured OOM fact (`oom.OomInfo`): timestamp, byte amount,
resource kind and container identity.  Timestamps are unix seconds. -/
structure OomInfo where
  timestamp : Nat
  memory : Nat
  resource : ResourceKind
  containerID : ContainerID
deriving DecidableEq, Repr

/-! ## Query builder (embedded from `metrics_custom_query_builder.go`) -/

/-- `const batchSize = 500`: caps the number of pods OR'd in the regex
pod-name label of a single query. -/
def batchSize : Nat := 500

/-- `nsQuery` wraps a custom resource query with metadata. -/
structure NsQuery where
  query : String
  resource : ResourceKind
  pods : List String
  «namespace» : String
  containerNameLabel : String
  podNameLabel : String
deriving DecidableEq, Repr

/-- `rssQueryBuilder`: builder state for the RSS metric query. -/
structure RssQueryBuilder where
  resource : ResourceKind
  containerNameLabel : String
  podNameLabel : String
deriving DecidableEq, Repr

/-- `jvmHeapCommittedQueryBuilder`: builder state for the JVM Heap Committed
metric query. -/
structure JvmHeapCommittedQueryBuilder where
  resource : ResourceKind
  containerNameLabel : String
  podNameLabel : String
deriving DecidableEq, Repr

/-- `regexOr`: `strings.Join(values, "|")`. -/
def regexOr (values : List String) : String :=
  String.intercalate "|" values

/-- `getRSSQuery`: constructs the RSS builder with its fixed resource kind. -/
def getRSSQuery (containerNameLabel podNameLabel : String) : RssQueryBuilder :=
  { resource := ResourceKind.RSS
    containerNameLabel := containerNameLabel
    podNameLabel := podNameLabel }

/-- `getJVMHeapCommittedQuery`: constructs the JVM heap builder with its
fixed resource kind. -/
def getJVMHeapCommittedQuery (containerNameLabel podNameLabel : String) :
    JvmHeapCommittedQueryBuilder :=
  { resource := ResourceKind.JVMHeapCommitted
    containerNameLabel := containerNameLabel
    podNameLabel := podNameLabel }

/-- Fuel-indexed helper for `batchPodNames`: peels off one slice of at most
`batchSize` names per step.  A fuel of at least the list's length always
suffices, since every step consumes at least one element. -/
def batchPodNamesAux : Nat → List String → List (List String)
  | _, [] => []
  | 0, _ :: _ => []
  | fuel + 1, a :: t =>
      (a :: t).take batchSize :: batchPodNamesAux fuel ((a :: t).drop batchSize)

/-- `batchPodNames` splits the list of pod names into batches of
`batchSize`, taking consecutive slices `podNames[start:end]` in order. -/
def batchPodNames (podNames : List String) : List (List String) :=
  batchPodNamesAux podNames.length podNames

/-- `(*rssQueryBuilder).buildRaw`: one query covering all given pod names. -/
def RssQueryBuilder.buildRaw (r : RssQueryBuilder) (podNames : List String)
    (ns : String) : NsQuery :=
  { query := "max_over_time(container_memory_rss\x7b" ++ r.containerNameLabel
      ++ "!='', " ++ r.podNameLabel ++ "=~'" ++ regexOr podNames
      ++ "', namespace='" ++ ns ++ "'\x7d[5m])"
    resource := r.resource
    pods := podNames
    «namespace» := ns
    containerNameLabel := r.containerNameLabel
    podNameLabel := r.podNameLabel }

/-- `(*rssQueryBuilder).buildBatch`: one `buildRaw` query per batch of
pod names. -/
def RssQueryBuilder.buildBatch (r : RssQueryBuilder) (podNames : List String)
    (ns : String) : List NsQuery :=
  (batchPodNames podNames).map (fun batch => r.buildRaw batch ns)

/-- `(*jvmHeapCommittedQueryBuilder).buildRaw`: one query covering all given
pod names, with the `kubernetes_namespace` label for the namespace match. -/
def JvmHeapCommittedQueryBuilder.buildRaw (j : JvmHeapCommittedQueryBuilder)
    (podNames : List String) (ns : String) : NsQuery :=
  { query := "max_over_time(jmx_Memory_HeapMemoryUsage_committed\x7b"
      ++ j.containerNameLabel ++ "!='', " ++ j.podNameLabel ++ "=~'"
      ++ regexOr podNames ++ "', kubernetes_namespace='" ++ ns ++ "'\x7d[5m])"
    resource := j.resource
    pods := podNames
    «namespace» := ns
    containerNameLabel := j.containerNameLabel
    podNameLabel := j.podNameLabel }

/-- `(*jvmHeapCommittedQueryBuilder).buildBatch`: one `buildRaw` query per
batch of pod names. -/
def JvmHeapCommittedQueryBuilder.buildBatch (j : JvmHeapCommittedQueryBuilder)
    (podNames : List String) (ns : String) : List NsQuery :=
  (batchPodNames podNames).map (fun batch => j.buildRaw batch ns)

/-! ## Pod and container data model (inputs to the OOM observer) -/

/-- A container's last termination state (`v1.ContainerStateTerminated`):
reason, termination message and finish time (unix seconds). -/
structure Terminated where
  reason : String
  message : String
  finishedAt : Nat
deriving DecidableEq, Repr

/-- A container environment variable (`v1.EnvVar`). -/
structure EnvVar where
  name : String
  value : String
deriving DecidableEq, Repr

/-- A container status (`v1.ContainerStatus`): name, restart count and the
optional `LastTerminationState.Terminated`. -/
structure ContainerStatus where
  name : String
  restartCount : Nat
  lastTerminated : Option Terminated
deriving DecidableEq, Repr

/-- A container spec (`v1.Container`): name, declared environment and the
declared memory request and limit in bytes. -/
structure ContainerSpec where
  name : String
  env : List EnvVar
  memoryRequest : Nat
  memoryLimit : Nat
deriving DecidableEq, Repr

/-- A pod snapshot (`v1.Pod`): metadata plus spec containers and status
container statuses. -/
structure Pod where
  «namespace» : String
  name : String
  containers : List ContainerSpec
  containerStatuses : List ContainerStatus
deriving DecidableEq, Repr

/-! ## JVM heap-override parser (modelled from the spec) -/

/-- Digit characters folded into the decimal number they spell. -/
def natOfDigits (cs : List Char) : Nat :=
  cs.foldl (fun acc c => acc * 10 + (c.toNat - 48)) 0

/-- A non-empty all-digit character list parsed as a decimal number;
`none` otherwise. -/
def digitsToNat? (cs : List Char) : Option Nat :=
  if cs ≠ [] ∧ cs.all Char.isDigit then some (natOfDigits cs) else none

/-- Modelled from the spec: the grammar of the `OVERRIDE_JVM_HEAP_SIZE`
value accepted by `findContainerOverrideJvmHeapSizeEnv` (the observer source
is not in the excerpt).  An integer optionally followed by one
case-insensitive suffix: `m` means binary mebibytes, `g` binary gibibytes,
no suffix a raw byte count; any other shape yields no override. -/
def parseJvmHeapSize (s : String) : Option Nat :=
  let cs := s.data
  if cs.all Char.isDigit then digitsToNat? cs
  else
    match cs.getLast? with
    | none => none
    | some c =>
      if c = 'm' ∨ c = 'M' then
        (digitsToNat? cs.dropLast).map (fun n => n * 1048576)
      else if c = 'g' ∨ c = 'G' then
        (digitsToNat? cs.dropLast).map (fun n => n * 1073741824)
      else none

/-- Name of the per-container JVM heap override environment variable. -/
def overrideJvmHeapSizeEnvName : String := "OVERRIDE_JVM_HEAP_SIZE"

/-- Modelled from the spec: `findContainerOverrideJvmHeapSizeEnv` looks up
the `OVERRIDE_JVM_HEAP_SIZE` variable in the container's environment and
parses its value; an absent variable yields no override. -/
def findContainerOverrideJvmHeapSizeEnv (envVars : List EnvVar) : Option Nat :=
  match envVars.find? (fun e => e.name == overrideJvmHeapSizeEnvName) with
  | some e => parseJvmHeapSize e.value
  | none => none

/-! ## OOM observer (modelled from the spec, batch structure pinned by
`observer_test.go`) -/

/-- Decides whether `needle` occurs as a contiguous run at the head of
`haystack`. -/
def leadingRun : List Char → List Char → Bool
  | [], _ => true
  | _ :: _, [] => false
  | a :: as, b :: bs => a == b && leadingRun as bs

/-- Decides whether `needle` occurs as a contiguous run anywhere in
`haystack` (`strings.Contains` on the character level). -/
def containsRun (needle : List Char) : List Char → Bool
  | [] => leadingRun needle []
  | b :: bs => leadingRun needle (b :: bs) || containsRun needle bs

/-- The marker text looked for in the termination message of a JVM heap
OOM. -/
def jvmHeapOomMarker : String := "JVM Heap OOM"

/-- Modelled from the spec: the per-container step of
`OOMObserver.OnUpdate` (the observer source is not in the excerpt).
Returns the sequence of batches sent on the output channel for one
container: the OOMKilled path sends the Memory fact and the RSS fact as two
singleton batches (the test reads the channel twice), the JVM heap path
sends both facts as one batch (the test reads the channel once). -/
def processContainer (pod : Pod) (oldStatus newStatus : ContainerStatus)
    (spec : ContainerSpec) : List (List OomInfo) :=
  if newStatus.restartCount > oldStatus.restartCount then
    match newStatus.lastTerminated with
    | none => []
    | some t =>
      let cid : ContainerID :=
        { «namespace» := pod.«namespace»
          podName := pod.name
          containerName := newStatus.name }
      if t.reason == "OOMKilled" then
        [ [{ timestamp := t.finishedAt, memory := spec.memoryRequest
             resource := ResourceKind.Memory, containerID := cid }],
          [{ timestamp := t.finishedAt, memory := spec.memoryLimit
             resource := ResourceKind.RSS, containerID := cid }] ]
      else if t.reason == "Error" &&
          containsRun jvmHeapOomMarker.data t.message.data then
        match findContainerOverrideJvmHeapSizeEnv spec.env with
        | some heapBytes =>
          [ [{ timestamp := t.finishedAt, memory := heapBytes
               resource := ResourceKind.JVMHeapCommitted, containerID := cid },
             { timestamp := t.finishedAt, memory := spec.memoryLimit
               resource := ResourceKind.RSS, containerID := cid }] ]
        | none => []
      else []
  else []

/-- Modelled from the spec: `OOMObserver.OnUpdate` diffs the container
statuses of two successive pod snapshots and returns the batches of OOM
facts sent on the output channel, in order. -/
def onUpdateBatches (oldPod newPod : Pod) : List (List OomInfo) :=
  newPod.containerStatuses.foldr
    (fun newStatus acc =>
      match oldPod.containerStatuses.find? (fun s => s.name == newStatus.name),
          newPod.containers.find? (fun c => c.name == newStatus.name) with
      | some oldStatus, some spec =>
        processContainer newPod oldStatus newStatus spec ++ acc
      | _, _ => acc)
    []

/-! ## Eviction event parser (modelled from the spec) -/

/-- A cluster eviction event (`v1.Event`): annotation map, creation
timestamp (unix seconds) and involved-object reference. -/
structure EvictionEvent where
  annotations : List (String × String)
  creationTimestamp : Nat
  involvedNamespace : String
  involvedName : String
deriving DecidableEq, Repr

/-- Annotation lookup on an event. -/
def lookupAnn (e : EvictionEvent) (key : String) : Option String :=
  (e.annotations.find? (fun p => p.1 == key)).map (fun p => p.2)

/-- Comma split at the character level (`strings.Split(s, ",")`): an empty
string yields one empty field, and every comma opens a new field. -/
def splitCommaAux : List Char → List (List Char)
  | [] => [[]]
  | c :: cs =>
    if c = ',' then [] :: splitCommaAux cs
    else
      match splitCommaAux cs with
      | [] => [[c]]
      | h :: t => (c :: h) :: t

/-- `strings.Split(s, ",")` on strings. -/
def splitOnComma (s : String) : List String :=
  (splitCommaAux s.data).map String.mk

/-- Maps a starved-resource name to a recognized resource kind; only
"memory" is recognized. -/
def resourceNameToKind (s : String) : Option ResourceKind :=
  if s == "memory" then some ResourceKind.Memory else none

/-- Parses a Kubernetes quantity string as a byte count: a decimal number
with an optional binary (`Ki`, `Mi`, `Gi`) or decimal (`k`, `M`, `G`)
suffix; an unparsable string yields 0. -/
def parseQuantityBytes (s : String) : Nat :=
  let ds := s.data.takeWhile Char.isDigit
  let suffix := s.data.dropWhile Char.isDigit
  let n := natOfDigits ds
  if ds.isEmpty then 0
  else
    match String.mk suffix with
    | "" => n
    | "Ki" => n * 1024
    | "Mi" => n * 1048576
    | "Gi" => n * 1073741824
    | "k" => n * 1000
    | "M" => n * 1000000
    | "G" => n * 1000000000
    | _ => 0

/-- The annotation keys read by the eviction event parser. -/
def offendingContainersKey : String := "offending_containers"

/-- Annotation key of the offending containers' usage quantities. -/
def offendingContainersUsageKey : String := "offending_containers_usage"

/-- Annotation key of the starved resource names. -/
def starvedResourceKey : String := "starved_resource"

/-- Modelled from the spec: `parseEvictionEvent` (the observer source is
not in the excerpt).  Splits the three annotations on commas; a length
mismatch invalidates the whole event, otherwise the triples are zipped and
each triple with a recognized starved resource yields one fact, skipping
only unrecognized triples, in input order. -/
def parseEvictionEvent (e : EvictionEvent) : List OomInfo :=
  match lookupAnn e offendingContainersKey,
      lookupAnn e offendingContainersUsageKey,
      lookupAnn e starvedResourceKey with
  | some containersAnn, some usageAnn, some resourceAnn =>
    let containers := splitOnComma containersAnn
    let usages := splitOnComma usageAnn
    let resources := splitOnComma resourceAnn
    if containers.length = usages.length ∧ usages.length = resources.length
    then
      (containers.zip (usages.zip resources)).filterMap
        (fun triple =>
          match resourceNameToKind triple.2.2 with
          | some kind =>
            some { timestamp := e.creationTimestamp
                   memory := parseQuantityBytes triple.2.1
                   resource := kind
                   containerID :=
                     { «namespace» := e.involvedNamespace
                       podName := e.involvedName
                       containerName := triple.1 } }
          | none => none)
    else []
  | _, _, _ => []

/-! ## Metrics snapshot assembler (modelled from the spec) -/

/-- A per-container usage snapshot (`model.ContainerMetricsSnapshot`):
container identity and a usage association list from resource kind to
amount. -/
structure ContainerMetricsSnapshot where
  id : ContainerID
  usage : List (ResourceKind × Nat)
deriving DecidableEq, Repr

/-- The base resource set surfaced by the default metrics path. -/
def baseResources : List ResourceKind :=
  [ResourceKind.CPU, ResourceKind.Memory, ResourceKind.RSS]

/-- Restricts a usage association list to the base resource set. -/
def restrictUsage (usage : List (ResourceKind × Nat)) :
    List (ResourceKind × Nat) :=
  usage.filter (fun p => decide (p.1 ∈ baseResources))

/-- Modelled from the spec: `GetContainersMetrics` (the metrics client
source is not in the excerpt; only its tests are).  The underlying fetch
either fails — the failure is propagated verbatim — or yields raw
per-container snapshots, each of which is restricted to the base resource
set `{CPU, Memory, RSS}`. -/
def getContainersMetrics
    (fetched : Except String (List ContainerMetricsSnapshot)) :
    Except String (List ContainerMetricsSnapshot) :=
  match fetched with
  | Except.error e => Except.error e
  | Except.ok raws =>
    Except.ok (raws.map (fun s => { s with usage := restrictUsage s.usage }))

/-! ## Test fixtures (translated from `observer_test.go`) -/

/-- Unix time of `2018-02-23T13:38:48Z`, the termination instant used by
the tests. -/
def testFinishedAt : Nat := 1519393128

/-- The pod of `pod1Yaml`: restart count 0, no termination, memory request
1024 and limit 2048, env override "500M". -/
def testPod1 : Pod :=
  { «namespace» := "mockNamespace"
    name := "Pod1"
    containers :=
      [{ name := "Name11"
         env := [{ name := "OVERRIDE_JVM_HEAP_SIZE", value := "500M" }]
         memoryRequest := 1024
         memoryLimit := 2048 }]
    containerStatuses :=
      [{ name := "Name11", restartCount := 0, lastTerminated := none }] }

/-- The pod of `pod2Yaml`: restart count 1, terminated with reason
`OOMKilled` at the test instant. -/
def testPod2 : Pod :=
  { «namespace» := "mockNamespace"
    name := "Pod1"
    containers :=
      [{ name := "Name11"
         env := []
         memoryRequest := 1024
         memoryLimit := 2048 }]
    containerStatuses :=
      [{ name := "Name11"
         restartCount := 1
         lastTerminated := some
           { reason := "OOMKilled", message := ""
             finishedAt := testFinishedAt } }] }

/-- The pod of `pod3Yaml`: restart count 1, terminated with reason `Error`
and message "JVM Heap OOM\n", env override "500M". -/
def testPod3 : Pod :=
  { «namespace» := "mockNamespace"
    name := "Pod1"
    containers :=
      [{ name := "Name11"
         env := [{ name := "OVERRIDE_JVM_HEAP_SIZE", value := "500M" }]
         memoryRequest := 1024
         memoryLimit := 2048 }]
    containerStatuses :=
      [{ name := "Name11"
         restartCount := 1
         lastTerminated := some
           { reason := "Error", message := "JVM Heap OOM\n"
             finishedAt := testFinishedAt } }] }

/-- The malformed pod of `TestMalformedPodReceived`: restart count 1 but no
terminated state. -/
def testPodMalformed : Pod :=
  { «namespace» := "mockNamespace"
    name := "Pod1"
    containers :=
      [{ name := "Name11"
         env := []
         memoryRequest := 1024
         memoryLimit := 2048 }]
    containerStatuses :=
      [{ name := "Name11", restartCount := 1, lastTerminated := none }] }

/-- Builds one of the eviction events of `TestParseEvictionEvent` from its
three annotation values. -/
def testEvent (containers usage starved : String) : EvictionEvent :=
  { annotations :=
      [ (offendingContainersKey, containers),
        (offendingContainersUsageKey, usage),
        (starvedResourceKey, starved) ]
    creationTimestamp := testFinishedAt
    involvedNamespace := "test-namespace"
    involvedName := "pod1" }

/-- The container identity of the eviction-event test expectations. -/
def testEvictionCid (container : String) : ContainerID :=
  { «namespace» := "test-namespace", podName := "pod1"
    containerName := container }

/-- A raw snapshot carrying richer upstream data than the base resource
set, for grounding the snapshot assembler contract. -/
def testRawSnap : ContainerMetricsSnapshot :=
  { id := { «namespace» := "test-namespace", podName := "pod1"
            containerName := "container1" }
    usage := [(ResourceKind.CPU, 10), (ResourceKind.Memory, 20),
      (ResourceKind.RSS, 30), (ResourceKind.JVMHeapCommitted, 40)] }

/-! ## Chunking lemmas for `batchPodNames` -/

theorem batchPodNamesAux_join (fuel : Nat) :
    ∀ l : List String, l.length ≤ fuel → (batchPodNamesAux fuel l).flatten = l := by
  induction fuel with
  | zero =>
    intro l h
    have hl : l = [] := List.length_eq_zero.mp (Nat.le_zero.mp h)
    subst hl
    rfl
  | succ fuel ih =>
    intro l h
    cases l with
    | nil => rfl
    | cons a t =>
      simp only [batchPodNamesAux, List.flatten_cons]
      rw [ih ((a :: t).drop batchSize)
        (by
          simp only [List.length_drop, List.length_cons, batchSize]
          simp only [List.length_cons] at h
          omega)]
      exact List.take_append_drop _ _

theorem batchPodNamesAux_length (fuel : Nat) :
    ∀ l : List String, l.length ≤ fuel →
      (batchPodNamesAux fuel l).length = (l.length + 499) / 500 := by
  induction fuel with
  | zero =>
    intro l h
    have hl : l = [] := List.length_eq_zero.mp (Nat.le_zero.mp h)
    subst hl
    decide
  | succ fuel ih =>
    intro l h
    cases l with
    | nil => simp [batchPodNamesAux]
    | cons a t =>
      simp only [batchPodNamesAux, List.length_cons]
      rw [ih ((a :: t).drop batchSize)
        (by
          simp only [List.length_drop, List.length_cons, batchSize]
          simp only [List.length_cons] at h
          omega)]
      simp only [List.length_drop, List.length_cons, batchSize]
      omega

theorem batchPodNamesAux_mem (fuel : Nat) :
    ∀ l b : List String, b ∈ batchPodNamesAux fuel l → b.length ≤ batchSize := by
  induction fuel with
  | zero =>
    intro l b hb
    cases l <;> simp [batchPodNamesAux] at hb
  | succ fuel ih =>
    intro l b hb
    cases l with
    | nil => simp [batchPodNamesAux] at hb
    | cons a t =>
      simp only [batchPodNamesAux, List.mem_cons] at hb
      rcases hb with hb | hb
      · subst hb
        exact List.length_take_le _ _
      · exact ih _ _ hb

theorem batchPodNames_join (l : List String) : (batchPodNames l).flatten = l :=
  batchPodNamesAux_join l.length l (Nat.le_refl _)

theorem batchPodNames_length (l : List String) :
    (batchPodNames l).length = (l.length + 499) / 500 :=
  batchPodNamesAux_length l.length l (Nat.le_refl _)

theorem batchPodNames_mem (l b : List String) (hb : b ∈ batchPodNames l) :
    b.length ≤ batchSize :=
  batchPodNamesAux_mem l.length l b hb

theorem rss_buildBatch_map_pods (c p : String) (podNames : List String)
    (ns : String) :
    ((getRSSQuery c p).buildBatch podNames ns).map NsQuery.pods =
      batchPodNames podNames := by
  rw [RssQueryBuilder.buildBatch, List.map_map]
  show (batchPodNames podNames).map (fun b => b) = batchPodNames podNames
  simp

theorem jvm_buildBatch_map_pods (c p : String) (podNames : List String)
    (ns : String) :
    ((getJVMHeapCommittedQuery c p).buildBatch podNames ns).map NsQuery.pods =
      batchPodNames podNames := by
  rw [JvmHeapCommittedQueryBuilder.buildBatch, List.map_map]
  show (batchPodNames podNames).map (fun b => b) = batchPodNames podNames
  simp

/-- C5: for every list of N pod names and every namespace, `buildBatch` for
both the RSS and the JVMHeapCommitted builders returns exactly ⌈N/500⌉
queries over consecutive chunks of at most 500 names, the concatenation of
the queries' pod batches reproduces the input list exactly, and an empty
input yields no queries. -/
theorem buildBatch_chunks_cover_input (c p : String) (podNames : List String)
    (ns : String) :
    ((getRSSQuery c p).buildBatch podNames ns).length =
        (podNames.length + 499) / 500 ∧
    (((getRSSQuery c p).buildBatch podNames ns).map NsQuery.pods).flatten =
        podNames ∧
    (∀ q ∈ (getRSSQuery c p).buildBatch podNames ns, q.pods.length ≤ 500) ∧
    (podNames = [] → (getRSSQuery c p).buildBatch podNames ns = []) ∧
    ((getJVMHeapCommittedQuery c p).buildBatch podNames ns).length =
        (podNames.length + 499) / 500 ∧
    (((getJVMHeapCommittedQuery c p).buildBatch podNames ns).map
        NsQuery.pods).flatten = podNames ∧
    (∀ q ∈ (getJVMHeapCommittedQuery c p).buildBatch podNames ns,
        q.pods.length ≤ 500) ∧
    (podNames = [] →
        (getJVMHeapCommittedQuery c p).buildBatch podNames ns = []) := by
  refine ⟨?_, ?_, ?_, ?_, ?_, ?_, ?_, ?_⟩
  · rw [RssQueryBuilder.buildBatch, List.length_map, batchPodNames_length]
  · rw [rss_buildBatch_map_pods, batchPodNames_join]
  · intro q hq
    rcases List.mem_map.mp hq with ⟨b, hb, rfl⟩
    exact batchPodNames_mem podNames b hb
  · intro h
    subst h
    rfl
  · rw [JvmHeapCommittedQueryBuilder.buildBatch, List.length_map,
      batchPodNames_length]
  · rw [jvm_buildBatch_map_pods, batchPodNames_join]
  · intro q hq
    rcases List.mem_map.mp hq with ⟨b, hb, rfl⟩
    exact batchPodNames_mem podNames b hb
  · intro h
    subst h
    rfl

theorem buildBatch_chunks_cover_input_witness :
    ((((getRSSQuery "cname" "pname").buildBatch ["p1", "p2"] "ns1").map
        NsQuery.pods).flatten = ["p1", "p2"]) ∧
    ((getRSSQuery "cname" "pname").buildRaw ["p1", "p2"] "ns1" ∈
        (getRSSQuery "cname" "pname").buildBatch ["p1", "p2"] "ns1") ∧
    ((getRSSQuery "cname" "pname").buildRaw ["p1", "p2"] "ns1").pods.length
        ≤ 500 ∧
    (([] : List String) = []) ∧
    ((getRSSQuery "cname" "pname").buildBatch [] "ns1" = []) := by
  refine ⟨(buildBatch_chunks_cover_input "cname" "pname" ["p1", "p2"]
      "ns1").2.1, by decide, ?_, rfl,
    (buildBatch_chunks_cover_input "cname" "pname" [] "ns1").2.2.2.1 rfl⟩
  exact (buildBatch_chunks_cover_input "cname" "pname" ["p1", "p2"]
    "ns1").2.2.1 _ (by decide)

/-- C8: the RSS `buildRaw` query text selects a 5-minute `max_over_time` of
`container_memory_rss` filtered by a non-empty container label, a pod label
regex matching the '|'-joined pod names in input order, and an exact
`namespace` match; the JVMHeapCommitted query is analogous over the JVM
heap-committed metric with the `kubernetes_namespace` label. -/
theorem buildRaw_query_text (c p : String) (podNames : List String)
    (ns : String) :
    ((getRSSQuery c p).buildRaw podNames ns).query =
      "max_over_time(container_memory_rss\x7b" ++ c ++ "!='', " ++ p
        ++ "=~'" ++ String.intercalate "|" podNames ++ "', namespace='"
        ++ ns ++ "'\x7d[5m])" ∧
    ((getJVMHeapCommittedQuery c p).buildRaw podNames ns).query =
      "max_over_time(jmx_Memory_HeapMemoryUsage_committed\x7b" ++ c
        ++ "!='', " ++ p ++ "=~'" ++ String.intercalate "|" podNames
        ++ "', kubernetes_namespace='" ++ ns ++ "'\x7d[5m])" :=
  ⟨rfl, rfl⟩

/-- C10: every `nsQuery` produced by `buildRaw` (and hence every element of
`buildBatch`) has consistent metadata: the variant's fixed resource kind,
the namespace argument, the pod names passed in, and a query text whose
regex alternation is the '|'-join of its own pods field. -/
theorem nsQuery_metadata_consistent (c p : String) (podNames : List String)
    (ns : String) :
    (((getRSSQuery c p).buildRaw podNames ns).resource = ResourceKind.RSS ∧
      ((getRSSQuery c p).buildRaw podNames ns).«namespace» = ns ∧
      ((getRSSQuery c p).buildRaw podNames ns).pods = podNames) ∧
    (((getJVMHeapCommittedQuery c p).buildRaw podNames ns).resource =
        ResourceKind.JVMHeapCommitted ∧
      ((getJVMHeapCommittedQuery c p).buildRaw podNames ns).«namespace» =
        ns ∧
      ((getJVMHeapCommittedQuery c p).buildRaw podNames ns).pods =
        podNames) ∧
    (∀ q ∈ (getRSSQuery c p).buildBatch podNames ns,
      q.resource = ResourceKind.RSS ∧ q.«namespace» = ns ∧
      q.query = "max_over_time(container_memory_rss\x7b" ++ c ++ "!='', "
        ++ p ++ "=~'" ++ String.intercalate "|" q.pods ++ "', namespace='"
        ++ ns ++ "'\x7d[5m])") ∧
    (∀ q ∈ (getJVMHeapCommittedQuery c p).buildBatch podNames ns,
      q.resource = ResourceKind.JVMHeapCommitted ∧ q.«namespace» = ns ∧
      q.query = "max_over_time(jmx_Memory_HeapMemoryUsage_committed\x7b"
        ++ c ++ "!='', " ++ p ++ "=~'" ++ String.intercalate "|" q.pods
        ++ "', kubernetes_namespace='" ++ ns ++ "'\x7d[5m])") := by
  refine ⟨⟨rfl, rfl, rfl⟩, ⟨rfl, rfl, rfl⟩, ?_, ?_⟩
  · intro q hq
    rcases List.mem_map.mp hq with ⟨b, _, rfl⟩
    exact ⟨rfl, rfl, rfl⟩
  · intro q hq
    rcases List.mem_map.mp hq with ⟨b, _, rfl⟩
    exact ⟨rfl, rfl, rfl⟩

theorem nsQuery_metadata_consistent_witness :
    ((getRSSQuery "cname" "pname").buildRaw ["p1"] "ns1" ∈
      (getRSSQuery "cname" "pname").buildBatch ["p1"] "ns1") ∧
    ((getRSSQuery "cname" "pname").buildRaw ["p1"] "ns1").resource =
      ResourceKind.RSS := by
  refine ⟨by decide, ?_⟩
  exact ((nsQuery_metadata_consistent "cname" "pname" ["p1"]
    "ns1").2.2.1 _ (by decide)).1

/-! ## OOM observer theorems -/

/-- C1: for every common container whose restart count increased and whose
last termination has reason "OOMKilled", the observer emits exactly two
facts in order — Memory with the requested amount, then RSS with the limit
amount, both at `Terminated.FinishedAt` — and on the test pod pair of
`TestOOMReceived` those facts carry 1024 and 2048 bytes. -/
theorem oomKilled_emits_memory_then_rss (pod : Pod)
    (oldStatus newStatus : ContainerStatus) (spec : ContainerSpec)
    (t : Terminated)
    (hrc : newStatus.restartCount > oldStatus.restartCount)
    (hterm : newStatus.lastTerminated = some t)
    (hreason : t.reason = "OOMKilled") :
    (processContainer pod oldStatus newStatus spec).flatten =
      [ OomInfo.mk t.finishedAt spec.memoryRequest ResourceKind.Memory
          (ContainerID.mk pod.«namespace» pod.name newStatus.name),
        OomInfo.mk t.finishedAt spec.memoryLimit ResourceKind.RSS
          (ContainerID.mk pod.«namespace» pod.name newStatus.name) ] ∧
    (onUpdateBatches testPod1 testPod2).flatten =
      [ OomInfo.mk testFinishedAt 1024 ResourceKind.Memory
          (ContainerID.mk "mockNamespace" "Pod1" "Name11"),
        OomInfo.mk testFinishedAt 2048 ResourceKind.RSS
          (ContainerID.mk "mockNamespace" "Pod1" "Name11") ] := by
  constructor
  · simp [processContainer, hrc, hterm, hreason]
  · decide

theorem oomKilled_emits_memory_then_rss_witness :
    ((1 : Nat) > 0) ∧
    (("OOMKilled" : String) = "OOMKilled") ∧
    (processContainer testPod2
        (ContainerStatus.mk "Name11" 0 none)
        (ContainerStatus.mk "Name11" 1
          (some (Terminated.mk "OOMKilled" "" testFinishedAt)))
        (ContainerSpec.mk "Name11" [] 1024 2048)).flatten =
      [ OomInfo.mk testFinishedAt 1024 ResourceKind.Memory
          (ContainerID.mk "mockNamespace" "Pod1" "Name11"),
        OomInfo.mk testFinishedAt 2048 ResourceKind.RSS
          (ContainerID.mk "mockNamespace" "Pod1" "Name11") ] := by
  refine ⟨by decide, rfl, ?_⟩
  exact (oomKilled_emits_memory_then_rss testPod2
    (ContainerStatus.mk "Name11" 0 none)
    (ContainerStatus.mk "Name11" 1
      (some (Terminated.mk "OOMKilled" "" testFinishedAt)))
    (ContainerSpec.mk "Name11" [] 1024 2048)
    (Terminated.mk "OOMKilled" "" testFinishedAt)
    (by decide) rfl rfl).1

/-- C2: for every common container whose restart count increased, whose
last termination has reason "Error" with the "JVM Heap OOM" marker in its
message, and whose environment override parses, the observer emits the
JVMHeapCommitted fact with the parsed bytes and then the RSS fact with the
limit amount at `Terminated.FinishedAt`; a failed parse emits nothing.  On
the test pod pair of `TestJVMHeapOOMReceived` ("500M" override) the facts
carry 524288000 and 2048 bytes. -/
theorem jvmHeapOom_emits_jvm_then_rss (pod : Pod)
    (oldStatus newStatus : ContainerStatus) (spec : ContainerSpec)
    (t : Terminated) (heapBytes : Nat)
    (hrc : newStatus.restartCount > oldStatus.restartCount)
    (hterm : newStatus.lastTerminated = some t)
    (hreason : t.reason = "Error")
    (hmsg : containsRun jvmHeapOomMarker.data t.message.data = true) :
    (findContainerOverrideJvmHeapSizeEnv spec.env = some heapBytes →
      (processContainer pod oldStatus newStatus spec).flatten =
        [ OomInfo.mk t.finishedAt heapBytes ResourceKind.JVMHeapCommitted
            (ContainerID.mk pod.«namespace» pod.name newStatus.name),
          OomInfo.mk t.finishedAt spec.memoryLimit ResourceKind.RSS
            (ContainerID.mk pod.«namespace» pod.name newStatus.name) ]) ∧
    (findContainerOverrideJvmHeapSizeEnv spec.env = none →
      processContainer pod oldStatus newStatus spec = []) ∧
    (onUpdateBatches testPod1 testPod3).flatten =
      [ OomInfo.mk testFinishedAt 524288000 ResourceKind.JVMHeapCommitted
          (ContainerID.mk "mockNamespace" "Pod1" "Name11"),
        OomInfo.mk testFinishedAt 2048 ResourceKind.RSS
          (ContainerID.mk "mockNamespace" "Pod1" "Name11") ] := by
  refine ⟨?_, ?_, by decide⟩
  · intro henv
    simp [processContainer, hrc, hterm, hreason, hmsg, henv]
  · intro henv
    simp [processContainer, hrc, hterm, hreason, hmsg, henv]

theorem jvmHeapOom_emits_jvm_then_rss_witness :
    ((1 : Nat) > 0) ∧
    containsRun jvmHeapOomMarker.data ("JVM Heap OOM\n" : String).data = true ∧
    findContainerOverrideJvmHeapSizeEnv
        [EnvVar.mk "OVERRIDE_JVM_HEAP_SIZE" "500M"] = some 524288000 ∧
    (processContainer testPod3
        (ContainerStatus.mk "Name11" 0 none)
        (ContainerStatus.mk "Name11" 1
          (some (Terminated.mk "Error" "JVM Heap OOM\n" testFinishedAt)))
        (ContainerSpec.mk "Name11"
          [EnvVar.mk "OVERRIDE_JVM_HEAP_SIZE" "500M"] 1024 2048)).flatten =
      [ OomInfo.mk testFinishedAt 524288000 ResourceKind.JVMHeapCommitted
          (ContainerID.mk "mockNamespace" "Pod1" "Name11"),
        OomInfo.mk testFinishedAt 2048 ResourceKind.RSS
          (ContainerID.mk "mockNamespace" "Pod1" "Name11") ] := by
  refine ⟨by decide, by decide, by decide, ?_⟩
  exact (jvmHeapOom_emits_jvm_then_rss testPod3
    (ContainerStatus.mk "Name11" 0 none)
    (ContainerStatus.mk "Name11" 1
      (some (Terminated.mk "Error" "JVM Heap OOM\n" testFinishedAt)))
    (ContainerSpec.mk "Name11"
      [EnvVar.mk "OVERRIDE_JVM_HEAP_SIZE" "500M"] 1024 2048)
    (Terminated.mk "Error" "JVM Heap OOM\n" testFinishedAt)
    524288000 (by decide) rfl rfl (by decide)).1 (by decide)

/-- C7: a container whose restart count did not increase emits nothing,
and a container whose restart count increased without a recorded
terminated state emits nothing and raises no error; on the malformed test
pod of `TestMalformedPodReceived` the channel receives nothing. -/
theorem no_oom_transition_emits_nothing (pod : Pod)
    (oldStatus newStatus : ContainerStatus) (spec : ContainerSpec) :
    (¬ newStatus.restartCount > oldStatus.restartCount →
      processContainer pod oldStatus newStatus spec = []) ∧
    (newStatus.lastTerminated = none →
      processContainer pod oldStatus newStatus spec = []) ∧
    onUpdateBatches testPod1 testPodMalformed = [] := by
  refine ⟨?_, ?_, by decide⟩
  · intro h
    simp [processContainer, h]
  · intro h
    simp [processContainer, h]

theorem no_oom_transition_emits_nothing_witness :
    (¬ (0 : Nat) > 0) ∧
    ((none : Option Terminated) = none) ∧
    processContainer testPod1
        (ContainerStatus.mk "Name11" 0 none)
        (ContainerStatus.mk "Name11" 0 none)
        (ContainerSpec.mk "Name11" [] 1024 2048) = [] := by
  refine ⟨by decide, rfl, ?_⟩
  exact (no_oom_transition_emits_nothing testPod1
    (ContainerStatus.mk "Name11" 0 none)
    (ContainerStatus.mk "Name11" 0 none)
    (ContainerSpec.mk "Name11" [] 1024 2048)).1 (by decide)

/-- C6 as stated is false on the code: on the OOMKilled test pod pair a
single OnUpdate call yields two facts, but they are sent as two singleton
batches rather than as one ordered batch. -/
theorem oom_batching_counterexample :
    (onUpdateBatches testPod1 testPod2).flatten.length = 2 ∧
    onUpdateBatches testPod1 testPod2 ≠
      [(onUpdateBatches testPod1 testPod2).flatten] := by decide

/-- C6 amended: the facts of one OnUpdate call are delivered in order, the
JVM path's JVMHeapCommitted-then-RSS pair as one batch, the OOMKilled
path's Memory-then-RSS pair as two consecutive singleton batches. -/
theorem onUpdate_batch_structure (pod : Pod)
    (oldStatus newStatus : ContainerStatus) (spec : ContainerSpec)
    (t : Terminated) (heapBytes : Nat)
    (hrc : newStatus.restartCount > oldStatus.restartCount)
    (hterm : newStatus.lastTerminated = some t) :
    (t.reason = "OOMKilled" →
      processContainer pod oldStatus newStatus spec =
        [ [OomInfo.mk t.finishedAt spec.memoryRequest ResourceKind.Memory
            (ContainerID.mk pod.«namespace» pod.name newStatus.name)],
          [OomInfo.mk t.finishedAt spec.memoryLimit ResourceKind.RSS
            (ContainerID.mk pod.«namespace» pod.name newStatus.name)] ]) ∧
    (t.reason = "Error" →
      containsRun jvmHeapOomMarker.data t.message.data = true →
      findContainerOverrideJvmHeapSizeEnv spec.env = some heapBytes →
      processContainer pod oldStatus newStatus spec =
        [ [OomInfo.mk t.finishedAt heapBytes ResourceKind.JVMHeapCommitted
             (ContainerID.mk pod.«namespace» pod.name newStatus.name),
           OomInfo.mk t.finishedAt spec.memoryLimit ResourceKind.RSS
             (ContainerID.mk pod.«namespace» pod.name newStatus.name)] ]) := by
  constructor
  · intro hreason
    simp [processContainer, hrc, hterm, hreason]
  · intro hreason hmsg henv
    simp [processContainer, hrc, hterm, hreason, hmsg, henv]

theorem onUpdate_batch_structure_witness :
    ((1 : Nat) > 0) ∧
    (("OOMKilled" : String) = "OOMKilled") ∧
    (processContainer testPod2
        (ContainerStatus.mk "Name11" 0 none)
        (ContainerStatus.mk "Name11" 1
          (some (Terminated.mk "OOMKilled" "" testFinishedAt)))
        (ContainerSpec.mk "Name11" [] 1024 2048)).length = 2 := by
  refine ⟨by decide, rfl, ?_⟩
  rw [(onUpdate_batch_structure testPod2
    (ContainerStatus.mk "Name11" 0 none)
    (ContainerStatus.mk "Name11" 1
      (some (Terminated.mk "OOMKilled" "" testFinishedAt)))
    (ContainerSpec.mk "Name11" [] 1024 2048)
    (Terminated.mk "OOMKilled" "" testFinishedAt)
    0 (by decide) rfl).1 rfl]
  rfl

/-! ## Heap-override grammar theorems -/

theorem digitsToNat?_of_digits (ds : List Char) (hds : ds ≠ [])
    (hdig : ds.all Char.isDigit = true) :
    digitsToNat? ds = some (natOfDigits ds) := by
  simp [digitsToNat?, hds, hdig]

theorem parseJvmHeapSize_suffix (ds : List Char) (c : Char)
    (hnd : c.isDigit = false) :
    parseJvmHeapSize (String.mk (ds ++ [c])) =
      if c = 'm' ∨ c = 'M' then
        (digitsToNat? ds).map (fun n => n * 1048576)
      else if c = 'g' ∨ c = 'G' then
        (digitsToNat? ds).map (fun n => n * 1073741824)
      else none := by
  have hall : ((ds ++ [c]).all Char.isDigit) = false := by
    simp [List.all_append, hnd]
  simp only [parseJvmHeapSize]
  rw [if_neg (by simp [hall]), List.getLast?_concat, List.dropLast_concat]

/-- C3: the `OVERRIDE_JVM_HEAP_SIZE` grammar — an integer with
case-insensitive suffix `m` yields binary mebibytes, suffix `g` binary
gibibytes, no suffix a raw byte count, and any other shape (non-numeric,
empty, unrecognized suffix, absent variable) yields a null result. -/
theorem heap_override_grammar (ds : List Char) (c : Char)
    (hds : ds ≠ []) (hdig : ds.all Char.isDigit = true) :
    ((c = 'm' ∨ c = 'M') →
      findContainerOverrideJvmHeapSizeEnv
          [EnvVar.mk overrideJvmHeapSizeEnvName (String.mk (ds ++ [c]))] =
        some (natOfDigits ds * 1048576)) ∧
    ((c = 'g' ∨ c = 'G') →
      findContainerOverrideJvmHeapSizeEnv
          [EnvVar.mk overrideJvmHeapSizeEnvName (String.mk (ds ++ [c]))] =
        some (natOfDigits ds * 1073741824)) ∧
    (findContainerOverrideJvmHeapSizeEnv
        [EnvVar.mk overrideJvmHeapSizeEnvName (String.mk ds)] =
      some (natOfDigits ds)) ∧
    (c.isDigit = false → c ≠ 'm' → c ≠ 'M' → c ≠ 'g' → c ≠ 'G' →
      findContainerOverrideJvmHeapSizeEnv
          [EnvVar.mk overrideJvmHeapSizeEnvName (String.mk (ds ++ [c]))] =
        none) ∧
    (∀ envVars : List EnvVar,
      envVars.find? (fun e => e.name == overrideJvmHeapSizeEnvName) = none →
      findContainerOverrideJvmHeapSizeEnv envVars = none) ∧
    findContainerOverrideJvmHeapSizeEnv
        [EnvVar.mk overrideJvmHeapSizeEnvName "512m"] = some 536870912 ∧
    findContainerOverrideJvmHeapSizeEnv
        [EnvVar.mk overrideJvmHeapSizeEnvName "2g"] = some 2147483648 ∧
    findContainerOverrideJvmHeapSizeEnv
        [EnvVar.mk overrideJvmHeapSizeEnvName "1048576"] = some 1048576 ∧
    findContainerOverrideJvmHeapSizeEnv
        [EnvVar.mk overrideJvmHeapSizeEnvName "invalid"] = none ∧
    findContainerOverrideJvmHeapSizeEnv
        [EnvVar.mk overrideJvmHeapSizeEnvName ""] = none ∧
    findContainerOverrideJvmHeapSizeEnv
        [EnvVar.mk "SOME_OTHER_ENV_VAR" "value"] = none := by
  have hfind : ∀ v : String,
      findContainerOverrideJvmHeapSizeEnv
          [EnvVar.mk overrideJvmHeapSizeEnvName v] = parseJvmHeapSize v :=
    fun v => rfl
  refine ⟨?_, ?_, ?_, ?_, ?_, by decide, by decide, by decide, by decide,
    by decide, by decide⟩
  · intro hc
    rw [hfind, parseJvmHeapSize_suffix ds c
      (by rcases hc with rfl | rfl <;> decide)]
    rw [if_pos hc, digitsToNat?_of_digits ds hds hdig]
    rfl
  · intro hc
    rw [hfind, parseJvmHeapSize_suffix ds c
      (by rcases hc with rfl | rfl <;> decide)]
    rw [if_neg (by rcases hc with rfl | rfl <;> decide), if_pos hc,
      digitsToNat?_of_digits ds hds hdig]
    rfl
  · rw [hfind]
    simp only [parseJvmHeapSize]
    rw [if_pos hdig]
    exact digitsToNat?_of_digits ds hds hdig
  · intro hnd hm hM hg hG
    rw [hfind, parseJvmHeapSize_suffix ds c hnd,
      if_neg (by simp [hm, hM]), if_neg (by simp [hg, hG])]
  · intro envVars h
    simp [findContainerOverrideJvmHeapSizeEnv, h]

theorem heap_override_grammar_witness :
    ((['5', '1', '2'] : List Char) ≠ []) ∧
    (['5', '1', '2'].all Char.isDigit = true) ∧
    (('m' : Char) = 'm' ∨ ('m' : Char) = 'M') ∧
    findContainerOverrideJvmHeapSizeEnv
        [EnvVar.mk overrideJvmHeapSizeEnvName
          (String.mk (['5', '1', '2'] ++ ['m']))] =
      some (natOfDigits ['5', '1', '2'] * 1048576) := by
  refine ⟨by decide, by decide, Or.inl rfl, ?_⟩
  exact (heap_override_grammar ['5', '1', '2'] 'm' (by decide)
    (by decide)).1 (Or.inl rfl)

/-! ## Eviction event parser theorems -/

theorem resourceNameToKind_recognized (s : String) (k : ResourceKind)
    (h : resourceNameToKind s = some k) : k = ResourceKind.Memory := by
  unfold resourceNameToKind at h
  split at h
  · injection h with h
    exact h.symm
  · cases h

/-- C4: `parseEvictionEvent` is total; a length mismatch of the three
comma-split annotation lists discards the whole event, otherwise one fact
is emitted per recognized triple in input order (unrecognized triples are
skipped without invalidating siblings), each fact carrying the event's
creation time, the parsed usage quantity and the involved object's
identity; grounded on the four `TestParseEvictionEvent` cases. -/
theorem parseEvictionEvent_contract (e : EvictionEvent)
    (cAnn uAnn rAnn : String)
    (hc : lookupAnn e offendingContainersKey = some cAnn)
    (hu : lookupAnn e offendingContainersUsageKey = some uAnn)
    (hr : lookupAnn e starvedResourceKey = some rAnn) :
    (¬ ((splitOnComma cAnn).length = (splitOnComma uAnn).length ∧
        (splitOnComma uAnn).length = (splitOnComma rAnn).length) →
      parseEvictionEvent e = []) ∧
    (∀ info ∈ parseEvictionEvent e,
      info.timestamp = e.creationTimestamp ∧
      info.containerID.«namespace» = e.involvedNamespace ∧
      info.containerID.podName = e.involvedName ∧
      info.resource = ResourceKind.Memory) ∧
    parseEvictionEvent (testEvent "test-container" "1024Ki" "memory") =
      [OomInfo.mk testFinishedAt 1048576 ResourceKind.Memory
        (testEvictionCid "test-container")] ∧
    parseEvictionEvent
        (testEvent "test-container,other-container" "1024Ki,2048Ki"
          "memory,memory") =
      [OomInfo.mk testFinishedAt 1048576 ResourceKind.Memory
        (testEvictionCid "test-container"),
       OomInfo.mk testFinishedAt 2097152 ResourceKind.Memory
        (testEvictionCid "other-container")] ∧
    parseEvictionEvent
        (testEvent "test-container,other-container" "1024Ki,2048Ki"
          "memory,evictable") =
      [OomInfo.mk testFinishedAt 1048576 ResourceKind.Memory
        (testEvictionCid "test-container")] ∧
    parseEvictionEvent
        (testEvent "test-container,other-container" "1024Ki,2048Ki"
          "memory") = [] := by
  refine ⟨?_, ?_, by decide, by decide, by decide, by decide⟩
  · intro hmis
    simp only [parseEvictionEvent, hc, hu, hr]
    rw [if_neg hmis]
  · intro info hinfo
    simp only [parseEvictionEvent, hc, hu, hr] at hinfo
    by_cases hlen : (splitOnComma cAnn).length = (splitOnComma uAnn).length ∧
        (splitOnComma uAnn).length = (splitOnComma rAnn).length
    · rw [if_pos hlen] at hinfo
      rcases List.mem_filterMap.mp hinfo with ⟨triple, _, htr⟩
      rcases hk : resourceNameToKind triple.2.2 with _ | kind
      · rw [hk] at htr
        cases htr
      · rw [hk] at htr
        injection htr with h
        subst h
        exact ⟨rfl, rfl, rfl, resourceNameToKind_recognized _ _ hk⟩
    · rw [if_neg hlen] at hinfo
      cases hinfo

theorem parseEvictionEvent_contract_witness :
    (lookupAnn (testEvent "test-container" "1024Ki" "memory")
        offendingContainersKey = some "test-container") ∧
    (OomInfo.mk testFinishedAt 1048576 ResourceKind.Memory
        (testEvictionCid "test-container") ∈
      parseEvictionEvent (testEvent "test-container" "1024Ki" "memory")) ∧
    (OomInfo.mk testFinishedAt 1048576 ResourceKind.Memory
        (testEvictionCid "test-container")).timestamp =
      (testEvent "test-container" "1024Ki" "memory").creationTimestamp := by
  refine ⟨rfl, by decide, ?_⟩
  exact ((parseEvictionEvent_contract
    (testEvent "test-container" "1024Ki" "memory")
    "test-container" "1024Ki" "memory" rfl rfl rfl).2.1 _ (by decide)).1

/-! ## Metrics snapshot assembler theorems -/

theorem base_resource_not_jvm (k : ResourceKind) (hk : k ∈ baseResources) :
    k ≠ ResourceKind.JVMHeapCommitted := by
  simp [baseResources] at hk
  rcases hk with rfl | rfl | rfl <;> decide

/-- C9: `GetContainersMetrics` on an empty source returns a non-nil empty
sequence and no error; on a populated source it returns one snapshot per
container whose usage is restricted to exactly `{CPU, Memory, RSS}` (never
JVMHeapCommitted, with the base entries preserved); a fetch failure is
propagated verbatim. -/
theorem getContainersMetrics_contract :
    getContainersMetrics (Except.ok []) = Except.ok [] ∧
    (∀ err : String,
      getContainersMetrics (Except.error err) = Except.error err) ∧
    (∀ raws : List ContainerMetricsSnapshot, ∃ l,
      getContainersMetrics (Except.ok raws) = Except.ok l ∧
      l.length = raws.length ∧
      ∀ s ∈ l, ∀ pr ∈ s.usage,
        pr.1 ∈ baseResources ∧ pr.1 ≠ ResourceKind.JVMHeapCommitted) ∧
    (∀ usage : List (ResourceKind × Nat), ∀ pr ∈ usage,
      pr.1 ∈ baseResources → pr ∈ restrictUsage usage) ∧
    getContainersMetrics (Except.ok [testRawSnap]) =
      Except.ok [ContainerMetricsSnapshot.mk testRawSnap.id
        [(ResourceKind.CPU, 10), (ResourceKind.Memory, 20),
          (ResourceKind.RSS, 30)]] := by
  refine ⟨rfl, fun err => rfl, ?_, ?_, rfl⟩
  · intro raws
    refine ⟨_, rfl, by simp [getContainersMetrics], ?_⟩
    intro s hs pr hpr
    rcases List.mem_map.mp hs with ⟨raw, _, rfl⟩
    have hpr' : pr ∈ restrictUsage raw.usage := hpr
    have hbase : pr.1 ∈ baseResources :=
      of_decide_eq_true (List.mem_filter.mp hpr').2
    exact ⟨hbase, base_resource_not_jvm _ hbase⟩
  · intro usage pr hpr hbase
    exact List.mem_filter.mpr ⟨hpr, decide_eq_true hbase⟩

theorem getContainersMetrics_contract_witness :
    ((ResourceKind.CPU, 10) ∈ testRawSnap.usage) ∧
    ((ResourceKind.CPU, 10).1 ∈ baseResources) ∧
    ((ResourceKind.CPU, 10) ∈ restrictUsage testRawSnap.usage) ∧
    getContainersMetrics (Except.error "fetch failed") =
      Except.error "fetch failed" := by
  refine ⟨by decide, by decide, ?_,
    getContainersMetrics_contract.2.1 "fetch failed"⟩
  exact getContainersMetrics_contract.2.2.2.1 testRawSnap.usage
    (ResourceKind.CPU, 10) (by decide) (by decide)

end Autoscaler
